import Mathlib

/-!
# Leveled logging facility (`commons/log.h`)

A shallow embedding of the logging macros of `commons/log.h` and of the
functions they call.  The macros are embedded from the header.  The bodies of
`init_log`, `init_log_custom`, the three setters and the two
`print_log_message` functions are declared in the header only; they are
modelled from the specification and marked as such.
-/

namespace Log

/-! ## Severity constants (`log.h`, lines 12-18) -/

def LOG_DEBUG_LEVEL : Int := 1
def LOG_INFO_LEVEL : Int := 2
def LOG_WARN_LEVEL : Int := 3
def LOG_ERROR_LEVEL : Int := 4
def LOG_FATAL_LEVEL : Int := 5

def LOG_DEFAULT_LEVEL : Int := 2

/-- The five defined severity ranks, in the order the header defines them. -/
def defined_levels : List Int :=
  [LOG_DEBUG_LEVEL, LOG_INFO_LEVEL, LOG_WARN_LEVEL, LOG_ERROR_LEVEL, LOG_FATAL_LEVEL]

/-! ## Global variables (`log.h`, lines 106-108) -/

/-- The three globals `verbose`, `log_level` and `log_filename`; a `NULL`
file name is `none`. -/
structure Globals where
  verbose : Int
  log_level : Int
  log_filename : Option String
  deriving DecidableEq, Repr

/-! ## Statements issued by the macros -/

/-- The library calls a macro expansion can contain, with their actual
arguments, and `exit`. -/
inductive Stmt where
  | set_log_verbose (level : Int)
  | set_log_level (level : Int)
  | set_log_filename (filename : Option String)
  | init_log
  | init_log_custom (level : Int) (verbose : Int) (log_filename : Option String)
  | print_log_message (level : Int) (log_level_word : String) (filename : String)
      (num_line : Int) (func : String) (msg : String)
  | print_log_message_with_format (level : Int) (log_level_word : String)
      (filename : String) (num_line : Int) (func : String) (msg_format : String)
      (args : List String)
  | exit (status : Int)
  deriving DecidableEq, Repr

/-- The call site of a macro: the values of `__FILE__`, `__LINE__` and
`__func__` where it is expanded. -/
structure Site where
  file : String
  line : Int
  func : String
  deriving DecidableEq, Repr

/-! ## The macros (`log.h`, lines 24-100) -/

def LOG_VERBOSE (level : Int) : List Stmt :=
  [Stmt.set_log_verbose level]

def LOG_FILE (filename : Option String) : List Stmt :=
  [Stmt.set_log_filename filename]

def LOG_DEBUG (s : Site) (msg : String) : List Stmt :=
  [Stmt.print_log_message LOG_DEBUG_LEVEL "DEBUG" s.file s.line s.func msg]

def LOG_INFO (s : Site) (msg : String) : List Stmt :=
  [Stmt.print_log_message LOG_INFO_LEVEL "INFO" s.file s.line s.func msg]

def LOG_WARN (s : Site) (msg : String) : List Stmt :=
  [Stmt.print_log_message LOG_WARN_LEVEL "WARNING" s.file s.line s.func msg]

def LOG_ERROR (s : Site) (msg : String) : List Stmt :=
  [Stmt.print_log_message LOG_ERROR_LEVEL "ERROR" s.file s.line s.func msg]

def LOG_FATAL (s : Site) (msg : String) : List Stmt :=
  [Stmt.print_log_message LOG_FATAL_LEVEL "FATAL" s.file s.line s.func msg,
   Stmt.exit (-1)]

def LOG_DEBUG_F (s : Site) (msg : String) (args : List String) : List Stmt :=
  [Stmt.print_log_message_with_format LOG_DEBUG_LEVEL "DEBUG" s.file s.line s.func msg args]

def LOG_INFO_F (s : Site) (msg : String) (args : List String) : List Stmt :=
  [Stmt.print_log_message_with_format LOG_INFO_LEVEL "INFO" s.file s.line s.func msg args]

def LOG_WARN_F (s : Site) (msg : String) (args : List String) : List Stmt :=
  [Stmt.print_log_message_with_format LOG_WARN_LEVEL "WARNING" s.file s.line s.func msg args]

def LOG_ERROR_F (s : Site) (msg : String) (args : List String) : List Stmt :=
  [Stmt.print_log_message_with_format LOG_ERROR_LEVEL "ERROR" s.file s.line s.func msg args]

def LOG_FATAL_F (s : Site) (msg : String) (args : List String) : List Stmt :=
  [Stmt.print_log_message_with_format LOG_FATAL_LEVEL "FATAL" s.file s.line s.func msg args,
   Stmt.exit (-1)]

/-- The macro `LOG_IF(level, cond, msg)`: `cond` is a C condition (true when
non-zero); the `switch` compares `level` with the five case labels in turn and
its `default` branch does nothing. -/
def LOG_IF (s : Site) (level : Int) (cond : Int) (msg : String) : List Stmt :=
  if cond ≠ 0 then
    if level = LOG_DEBUG_LEVEL then LOG_DEBUG s msg
    else if level = LOG_INFO_LEVEL then LOG_INFO s msg
    else if level = LOG_WARN_LEVEL then LOG_WARN s msg
    else if level = LOG_ERROR_LEVEL then LOG_ERROR s msg
    else if level = LOG_FATAL_LEVEL then LOG_FATAL s msg
    else []
  else []

/-! ## The functions behind the macros -/

/-- What the logging functions take from the platform: the wall-clock time
rendered as text, and the printf-style expansion of a template with its
arguments. -/
structure Env where
  now : String
  expand : String → List String → String

/-- One write operation issued by the destination router. -/
inductive Write where
  | to_stderr (line : String)
  | to_file (path : String) (line : String)
  deriving DecidableEq, Repr

/-- The text carried by a write operation. -/
def Write.text : Write → String
  | Write.to_stderr line => line
  | Write.to_file _ line => line

/-- Modelled from the spec: the body of `init_log` is not in the header;
the spec says it sets level=INFO (the default level), verbose=off and leaves
the file unset. -/
def init_log (_g : Globals) : Globals :=
  { verbose := 0, log_level := LOG_DEFAULT_LEVEL, log_filename := none }

/-- Modelled from the spec: the body of `init_log_custom` is not in the
header; the spec says it sets all three fields explicitly, the level being
accepted as it is. -/
def init_log_custom (level : Int) (verbose : Int) (log_filename : Option String)
    (_g : Globals) : Globals :=
  { verbose := verbose, log_level := level, log_filename := log_filename }

/-- Modelled from the spec: the body of `set_log_verbose` is not in the
header; the spec says the setter mutates its one field with no validation. -/
def set_log_verbose (verbose : Int) (g : Globals) : Globals :=
  { g with verbose := verbose }

/-- Modelled from the spec: the body of `set_log_level` is not in the header;
the spec says the setter mutates its one field with no validation. -/
def set_log_level (level : Int) (g : Globals) : Globals :=
  { g with log_level := level }

/-- Modelled from the spec: the body of `set_log_filename` is not in the
header; the spec says the setter mutates its one field with no validation. -/
def set_log_filename (filename : Option String) (g : Globals) : Globals :=
  { g with log_filename := filename }

/-- Modelled from the spec: the severity gate inside the logging functions,
whose bodies are not in the header; the spec says that a record whose rank is
strictly lower than the minimum level is skipped.  `skipped` is that test. -/
def skipped (g : Globals) (level : Int) : Bool :=
  decide (level < g.log_level)

/-- Modelled from the spec: the message formatter, whose code is not in the
header; the layout is the one the spec gives,
`[<timestamp>] [<LEVEL_LABEL>] [<function>] <file>:<line> - <message>`. -/
def format_line (env : Env) (log_level_word filename : String) (num_line : Int)
    (func msg : String) : String :=
  "[" ++ env.now ++ "] [" ++ log_level_word ++ "] [" ++ func ++ "] " ++
    filename ++ ":" ++ toString num_line ++ " - " ++ msg

/-- Modelled from the spec: the destination router, whose code is not in the
header; the line goes to standard error when `verbose` is set and is appended
to the file when a file name is set; either, both or neither may apply.  The
result is the list of write operations issued, one per destination. -/
def route (g : Globals) (line : String) : List Write :=
  (if g.verbose ≠ 0 then [Write.to_stderr line] else []) ++
  (match g.log_filename with
   | some path => [Write.to_file path line]
   | none => [])

/-- Modelled from the spec: the body of `print_log_message` is not in the
header; per the spec the gate comes first, then the formatter, then the
router.  The result is the list of write operations the call issues. -/
def print_log_message (env : Env) (g : Globals) (level : Int)
    (log_level_word filename : String) (num_line : Int) (func msg : String) :
    List Write :=
  if skipped g level then []
  else route g (format_line env log_level_word filename num_line func msg)

/-- Modelled from the spec: the body of `print_log_message_with_format` is not
in the header; per the spec it is the literal variant applied to the expansion
of the template, the gate coming before any formatting. -/
def print_log_message_with_format (env : Env) (g : Globals) (level : Int)
    (log_level_word filename : String) (num_line : Int) (func msg_format : String)
    (args : List String) : List Write :=
  if skipped g level then []
  else route g (format_line env log_level_word filename num_line func
    (env.expand msg_format args))

/-! ## Processes -/

/-- A running process: the globals, the statements executed so far and the
write operations issued so far, both oldest first. -/
structure Proc where
  globals : Globals
  trace : List Stmt
  output : List Write
  deriving DecidableEq, Repr

/-- How the execution of a statement list ends: control comes back to the
caller, or the process has terminated with the argument given to `exit`. -/
inductive Outcome where
  | returned (p : Proc)
  | exited (status : Int) (p : Proc)
  deriving DecidableEq, Repr

/-- The effect of one call on the globals and on the output. -/
def step (env : Env) (s : Stmt) (p : Proc) : Proc :=
  match s with
  | Stmt.set_log_verbose v =>
      { p with globals := set_log_verbose v p.globals, trace := p.trace ++ [s] }
  | Stmt.set_log_level l =>
      { p with globals := set_log_level l p.globals, trace := p.trace ++ [s] }
  | Stmt.set_log_filename f =>
      { p with globals := set_log_filename f p.globals, trace := p.trace ++ [s] }
  | Stmt.init_log =>
      { p with globals := init_log p.globals, trace := p.trace ++ [s] }
  | Stmt.init_log_custom l v f =>
      { p with globals := init_log_custom l v f p.globals, trace := p.trace ++ [s] }
  | Stmt.print_log_message l w f n fn m =>
      { p with trace := p.trace ++ [s],
               output := p.output ++ print_log_message env p.globals l w f n fn m }
  | Stmt.print_log_message_with_format l w f n fn m a =>
      { p with trace := p.trace ++ [s],
               output := p.output ++ print_log_message_with_format env p.globals l w f n fn m a }
  | Stmt.exit _ =>
      { p with trace := p.trace ++ [s] }

/-- Executes a statement list in order; `exit` terminates the process, so the
statements after it are not executed. -/
def exec (env : Env) : List Stmt → Proc → Outcome
  | [], p => Outcome.returned p
  | Stmt.exit status :: _, p => Outcome.exited status (step env (Stmt.exit status) p)
  | s :: rest, p => exec env rest (step env s p)

/-- The process of an outcome. -/
def Outcome.proc : Outcome → Proc
  | Outcome.returned p => p
  | Outcome.exited _ p => p

/-- The argument of `exit` when the process has terminated. -/
def Outcome.status : Outcome → Option Int
  | Outcome.returned _ => none
  | Outcome.exited status _ => some status

/-- The exit status a parent process observes: the least significant eight
bits of the argument of `exit`. -/
def wait_status (status : Int) : Int :=
  status % 256

/-- Whether a statement is one of the two logging calls. -/
def Stmt.is_log_call : Stmt → Bool
  | Stmt.print_log_message _ _ _ _ _ _ => true
  | Stmt.print_log_message_with_format _ _ _ _ _ _ _ => true
  | _ => false

/-- The rank and the label a logging call is given. -/
def Stmt.rank_label : Stmt → Option (Int × String)
  | Stmt.print_log_message l w _ _ _ _ => some (l, w)
  | Stmt.print_log_message_with_format l w _ _ _ _ _ => some (l, w)
  | _ => none

/-- The rank and label of every logging call in a statement list, in order. -/
def rank_labels (ss : List Stmt) : List (Int × String) :=
  ss.filterMap Stmt.rank_label

/-- Whether a statement is a call to `exit`. -/
def Stmt.is_exit : Stmt → Bool
  | Stmt.exit _ => true
  | _ => false

/-! ## Concrete inputs -/

/-- A platform with a fixed clock reading and a template expansion that
appends the arguments to the template. -/
def sample_env : Env :=
  { now := "Sat Oct 31 12:00:00 2026",
    expand := fun template args => String.join (template :: args) }

/-- A call site. -/
def sample_site : Site :=
  { file := "main.c", line := 42, func := "main" }

/-- A configuration that echoes to standard error and has no log file. -/
def verbose_globals (level : Int) : Globals :=
  { verbose := 1, log_level := level, log_filename := none }

/-- A process that has executed nothing yet. -/
def fresh (g : Globals) : Proc :=
  { globals := g, trace := [], output := [] }

/-- Executing `ss` makes exactly one call, a logging call, and control returns
to the caller: the process has not terminated and its trace has grown by that
one call. -/
def returns_after_one_call (env : Env) (ss : List Stmt) (p : Proc) : Prop :=
  (exec env ss p).status = none ∧
  ∃ c : Stmt, c.is_log_call = true ∧ ss = [c] ∧
    (exec env ss p).proc.trace = p.trace ++ [c]

/-! ## Basic facts -/

theorem skipped_eq_true_iff (g : Globals) (level : Int) :
    skipped g level = true ↔ level < g.log_level := by
  simp [skipped]

theorem skipped_eq_false_iff (g : Globals) (level : Int) :
    skipped g level = false ↔ level ≥ g.log_level := by
  simp [skipped]

theorem route_ne_nil (g : Globals) (line : String)
    (h : g.verbose ≠ 0 ∨ g.log_filename ≠ none) : route g line ≠ [] := by
  unfold route
  rcases h with h | h
  · simp [h]
  · cases hf : g.log_filename with
    | none => exact absurd hf h
    | some path => simp

theorem text_of_mem_route (g : Globals) (line : String) (w : Write)
    (h : w ∈ route g line) : w.text = line := by
  unfold route at h
  rcases List.mem_append.mp h with h | h
  · split at h
    · simp only [List.mem_singleton] at h
      subst h; rfl
    · simp at h
  · split at h
    · simp only [List.mem_singleton] at h
      subst h; rfl
    · simp at h

theorem exists_mem_route (g : Globals) (line : String)
    (h : g.verbose ≠ 0 ∨ g.log_filename ≠ none) :
    ∃ w ∈ route g line, w.text = line := by
  cases hr : route g line with
  | nil => exact absurd hr (route_ne_nil g line h)
  | cons w ws =>
    refine ⟨w, List.mem_cons_self w ws, ?_⟩
    apply text_of_mem_route g line w
    rw [hr]
    exact List.mem_cons_self w ws

theorem returns_after_one_call_single (env : Env) (c : Stmt) (p : Proc)
    (hc : c.is_log_call = true) : returns_after_one_call env [c] p := by
  refine ⟨?_, c, hc, rfl, ?_⟩ <;>
    cases c <;> simp [Stmt.is_log_call] at hc <;> rfl

/-! ## The severity gate -/

/-- C1: with a destination configured (verbose on or a file name set), a
logging call of rank `r`, literal or template, issues a write of its record if
and only if `r ≥ log_level`; when `r < log_level` it writes nothing. -/
theorem emits_iff_rank_ge (env : Env) (g : Globals) (r : Int)
    (word file : String) (line : Int) (func msg : String) (args : List String)
    (hdest : g.verbose ≠ 0 ∨ g.log_filename ≠ none) :
    ((∃ w ∈ print_log_message env g r word file line func msg,
        w.text = format_line env word file line func msg) ↔ r ≥ g.log_level) ∧
    ((∃ w ∈ print_log_message_with_format env g r word file line func msg args,
        w.text = format_line env word file line func (env.expand msg args)) ↔
      r ≥ g.log_level) ∧
    (r < g.log_level →
      print_log_message env g r word file line func msg = [] ∧
      print_log_message_with_format env g r word file line func msg args = []) := by
  refine ⟨?_, ?_, ?_⟩
  · constructor
    · rintro ⟨w, hw, _⟩
      by_contra hlt
      have hs : skipped g r = true := (skipped_eq_true_iff g r).mpr (not_le.mp hlt)
      simp [print_log_message, hs] at hw
    · intro hge
      have hs : skipped g r = false := (skipped_eq_false_iff g r).mpr hge
      simp only [print_log_message, hs]
      exact exists_mem_route g _ hdest
  · constructor
    · rintro ⟨w, hw, _⟩
      by_contra hlt
      have hs : skipped g r = true := (skipped_eq_true_iff g r).mpr (not_le.mp hlt)
      simp [print_log_message_with_format, hs] at hw
    · intro hge
      have hs : skipped g r = false := (skipped_eq_false_iff g r).mpr hge
      simp only [print_log_message_with_format, hs]
      exact exists_mem_route g _ hdest
  · intro hlt
    have hs : skipped g r = true := (skipped_eq_true_iff g r).mpr hlt
    simp [print_log_message, print_log_message_with_format, hs]

theorem emits_iff_rank_ge_witness :
    ((∃ w ∈ print_log_message sample_env (verbose_globals 3) LOG_ERROR_LEVEL "ERROR"
          "main.c" 42 "main" "disk full",
        w.text = format_line sample_env "ERROR" "main.c" 42 "main" "disk full") ↔
      LOG_ERROR_LEVEL ≥ (verbose_globals 3).log_level) ∧
    print_log_message sample_env (verbose_globals 3) LOG_ERROR_LEVEL "ERROR"
        "main.c" 42 "main" "disk full" =
      [Write.to_stderr "[Sat Oct 31 12:00:00 2026] [ERROR] [main] main.c:42 - disk full"] ∧
    print_log_message sample_env (verbose_globals 3) LOG_INFO_LEVEL "INFO"
        "main.c" 42 "main" "started" = [] :=
  ⟨(emits_iff_rank_ge sample_env (verbose_globals 3) LOG_ERROR_LEVEL "ERROR"
      "main.c" 42 "main" "disk full" [] (Or.inl (by decide))).1,
   by decide, by decide⟩

/-! ## The FATAL macros -/

/-- C2: for every message, configuration and continuation `rest`, `LOG_FATAL`
and `LOG_FATAL_F` execute the logging call with rank 5 and then `exit(-1)`:
the process terminates with argument -1, observed as status 255, which is not
0, and none of the statements in `rest` is executed. -/
theorem fatal_macros_terminate (env : Env) (s : Site) (msg : String)
    (args : List String) (rest : List Stmt) (p : Proc) :
    exec env (LOG_FATAL s msg ++ rest) p =
      Outcome.exited (-1)
        { globals := p.globals,
          trace := p.trace ++
            [Stmt.print_log_message LOG_FATAL_LEVEL "FATAL" s.file s.line s.func msg] ++
            [Stmt.exit (-1)],
          output := p.output ++
            print_log_message env p.globals LOG_FATAL_LEVEL "FATAL" s.file s.line s.func msg } ∧
    exec env (LOG_FATAL_F s msg args ++ rest) p =
      Outcome.exited (-1)
        { globals := p.globals,
          trace := p.trace ++
            [Stmt.print_log_message_with_format LOG_FATAL_LEVEL "FATAL" s.file s.line
              s.func msg args] ++
            [Stmt.exit (-1)],
          output := p.output ++
            print_log_message_with_format env p.globals LOG_FATAL_LEVEL "FATAL" s.file
              s.line s.func msg args } ∧
    LOG_FATAL_LEVEL = 5 ∧ wait_status (-1) = 255 ∧ wait_status (-1) ≠ 0 := by
  refine ⟨?_, ?_, rfl, by decide, by decide⟩
  · simp [LOG_FATAL, exec, step]
  · simp [LOG_FATAL_F, exec, step]

/-! ## The severity model -/

/-- C3: the five severity constants are DEBUG=1, INFO=2, WARN=3, ERROR=4,
FATAL=5; they are strictly increasing in that order, hence pairwise distinct,
and none of them exceeds `LOG_FATAL_LEVEL`. -/
theorem levels_ordered :
    LOG_DEBUG_LEVEL = 1 ∧ LOG_INFO_LEVEL = 2 ∧ LOG_WARN_LEVEL = 3 ∧
    LOG_ERROR_LEVEL = 4 ∧ LOG_FATAL_LEVEL = 5 ∧
    LOG_DEBUG_LEVEL < LOG_INFO_LEVEL ∧ LOG_INFO_LEVEL < LOG_WARN_LEVEL ∧
    LOG_WARN_LEVEL < LOG_ERROR_LEVEL ∧ LOG_ERROR_LEVEL < LOG_FATAL_LEVEL ∧
    defined_levels.Pairwise (fun a b => a < b) ∧
    defined_levels.Nodup ∧
    defined_levels.all (fun l => decide (l ≤ LOG_FATAL_LEVEL)) = true := by
  refine ⟨rfl, rfl, rfl, rfl, rfl, by decide, by decide, by decide, by decide,
    by decide, by decide, by decide⟩

/-- C4: each leveled macro passes the rank and the label of its own level, the
literal and the template variant passing the same pair: (1, "DEBUG"),
(2, "INFO"), (3, "WARNING"), (4, "ERROR"), (5, "FATAL"); among the pairs
passed, two have the same rank exactly when they have the same label. -/
theorem macros_pass_rank_and_label (s : Site) (msg : String) (args : List String) :
    rank_labels (LOG_DEBUG s msg) = [(1, "DEBUG")] ∧
    rank_labels (LOG_DEBUG_F s msg args) = [(1, "DEBUG")] ∧
    rank_labels (LOG_INFO s msg) = [(2, "INFO")] ∧
    rank_labels (LOG_INFO_F s msg args) = [(2, "INFO")] ∧
    rank_labels (LOG_WARN s msg) = [(3, "WARNING")] ∧
    rank_labels (LOG_WARN_F s msg args) = [(3, "WARNING")] ∧
    rank_labels (LOG_ERROR s msg) = [(4, "ERROR")] ∧
    rank_labels (LOG_ERROR_F s msg args) = [(4, "ERROR")] ∧
    rank_labels (LOG_FATAL s msg) = [(5, "FATAL")] ∧
    rank_labels (LOG_FATAL_F s msg args) = [(5, "FATAL")] ∧
    (rank_labels (LOG_DEBUG s msg ++ LOG_DEBUG_F s msg args ++ LOG_INFO s msg ++
        LOG_INFO_F s msg args ++ LOG_WARN s msg ++ LOG_WARN_F s msg args ++
        LOG_ERROR s msg ++ LOG_ERROR_F s msg args ++ LOG_FATAL s msg ++
        LOG_FATAL_F s msg args)).Pairwise
      (fun a b => a.1 = b.1 ↔ a.2 = b.2) := by
  refine ⟨rfl, rfl, rfl, rfl, rfl, rfl, rfl, rfl, rfl, rfl, ?_⟩
  have h : rank_labels (LOG_DEBUG s msg ++ LOG_DEBUG_F s msg args ++ LOG_INFO s msg ++
        LOG_INFO_F s msg args ++ LOG_WARN s msg ++ LOG_WARN_F s msg args ++
        LOG_ERROR s msg ++ LOG_ERROR_F s msg args ++ LOG_FATAL s msg ++
        LOG_FATAL_F s msg args) =
      [(1, "DEBUG"), (1, "DEBUG"), (2, "INFO"), (2, "INFO"), (3, "WARNING"),
       (3, "WARNING"), (4, "ERROR"), (4, "ERROR"), (5, "FATAL"), (5, "FATAL")] := rfl
  rw [h]
  decide

/-! ## Default initialisation -/

/-- C5: whatever the globals were, `init_log` leaves `log_level` at the
default level, which is the INFO rank 2, `verbose` at 0 and no log file name;
right after it an INFO record is not skipped by the gate and a DEBUG record
is. -/
theorem init_log_defaults (g : Globals) :
    init_log g = { verbose := 0, log_level := LOG_INFO_LEVEL, log_filename := none } ∧
    LOG_DEFAULT_LEVEL = LOG_INFO_LEVEL ∧ LOG_INFO_LEVEL = 2 ∧
    (init_log g).log_level = 2 ∧ (init_log g).verbose = 0 ∧
    (init_log g).log_filename = none ∧
    LOG_INFO_LEVEL ≥ (init_log g).log_level ∧
    skipped (init_log g) LOG_INFO_LEVEL = false ∧
    LOG_DEBUG_LEVEL < (init_log g).log_level ∧
    skipped (init_log g) LOG_DEBUG_LEVEL = true := by
  refine ⟨rfl, rfl, rfl, rfl, rfl, rfl, ?_, ?_, ?_, ?_⟩ <;>
    simp [init_log, skipped, LOG_DEFAULT_LEVEL, LOG_INFO_LEVEL, LOG_DEBUG_LEVEL]

/-- C9: `init_log` is idempotent: from every configuration, calling it twice
in a row leaves the same globals as calling it once, both as a function on the
globals and as two statements executed by a process. -/
theorem init_log_idempotent (env : Env) (g : Globals) (p : Proc) :
    init_log (init_log g) = init_log g ∧
    (exec env [Stmt.init_log, Stmt.init_log] p).proc.globals =
      (exec env [Stmt.init_log] p).proc.globals := by
  constructor
  · rfl
  · simp [exec, step, Outcome.proc, init_log]

/-! ## The conditional macro -/

/-- C6: `LOG_IF(level, cond, msg)` with a false condition expands to no call
at all, for every level, so the process goes on unchanged; with a true
condition and `level` one of the five ranks it is the leveled macro of that
rank, which contains exactly one logging call, with that rank; every
statement of the expansion is executed, and with the FATAL rank the process
then terminates. -/
theorem LOG_IF_dispatch (env : Env) (s : Site) (level cond : Int) (msg : String)
    (p : Proc) :
    (cond = 0 →
      LOG_IF s level cond msg = [] ∧
      exec env (LOG_IF s level cond msg) p = Outcome.returned p) ∧
    (cond ≠ 0 →
      (level = LOG_DEBUG_LEVEL → LOG_IF s level cond msg = LOG_DEBUG s msg) ∧
      (level = LOG_INFO_LEVEL → LOG_IF s level cond msg = LOG_INFO s msg) ∧
      (level = LOG_WARN_LEVEL → LOG_IF s level cond msg = LOG_WARN s msg) ∧
      (level = LOG_ERROR_LEVEL → LOG_IF s level cond msg = LOG_ERROR s msg) ∧
      (level = LOG_FATAL_LEVEL → LOG_IF s level cond msg = LOG_FATAL s msg) ∧
      (level ∈ defined_levels →
        ((LOG_IF s level cond msg).filter Stmt.is_log_call).length = 1 ∧
        (rank_labels (LOG_IF s level cond msg)).map Prod.fst = [level] ∧
        (exec env (LOG_IF s level cond msg) p).proc.trace =
          p.trace ++ LOG_IF s level cond msg) ∧
      (level ≠ LOG_FATAL_LEVEL →
        (exec env (LOG_IF s level cond msg) p).status = none) ∧
      (level = LOG_FATAL_LEVEL →
        (exec env (LOG_IF s level cond msg) p).status = some (-1))) := by
  constructor
  · intro hc
    subst hc
    simp [LOG_IF, exec]
  · intro hc
    refine ⟨?_, ?_, ?_, ?_, ?_, ?_, ?_, ?_⟩
    · intro h; subst h; simp [LOG_IF, hc]
    · intro h; subst h; simp [LOG_IF, hc, LOG_INFO_LEVEL, LOG_DEBUG_LEVEL]
    · intro h; subst h
      simp [LOG_IF, hc, LOG_WARN_LEVEL, LOG_INFO_LEVEL, LOG_DEBUG_LEVEL]
    · intro h; subst h
      simp [LOG_IF, hc, LOG_ERROR_LEVEL, LOG_WARN_LEVEL, LOG_INFO_LEVEL, LOG_DEBUG_LEVEL]
    · intro h; subst h
      simp [LOG_IF, hc, LOG_FATAL_LEVEL, LOG_ERROR_LEVEL, LOG_WARN_LEVEL, LOG_INFO_LEVEL,
        LOG_DEBUG_LEVEL]
    · intro h
      simp only [defined_levels, List.mem_cons, List.mem_singleton, List.mem_nil_iff,
        or_false] at h
      rcases h with h | h | h | h | h <;> subst h <;>
        simp [LOG_IF, hc, LOG_FATAL_LEVEL, LOG_ERROR_LEVEL, LOG_WARN_LEVEL, LOG_INFO_LEVEL,
          LOG_DEBUG_LEVEL, LOG_DEBUG, LOG_INFO, LOG_WARN, LOG_ERROR, LOG_FATAL,
          Stmt.is_log_call, rank_labels, Stmt.rank_label, exec, step, Outcome.proc]
    · intro h
      simp only [LOG_IF, hc, ne_eq, not_false_eq_true, if_true, h, if_false]
      split_ifs <;>
        simp [LOG_DEBUG, LOG_INFO, LOG_WARN, LOG_ERROR, exec, Outcome.status]
    · intro h; subst h
      simp [LOG_IF, hc, LOG_FATAL_LEVEL, LOG_ERROR_LEVEL, LOG_WARN_LEVEL, LOG_INFO_LEVEL,
        LOG_DEBUG_LEVEL, LOG_FATAL, exec, Outcome.status]

theorem LOG_IF_dispatch_witness :
    LOG_IF sample_site LOG_FATAL_LEVEL 1 "out of memory" =
      LOG_FATAL sample_site "out of memory" ∧
    (exec sample_env (LOG_IF sample_site LOG_FATAL_LEVEL 1 "out of memory")
      (fresh (verbose_globals 2))).status = some (-1) ∧
    exec sample_env (LOG_IF sample_site LOG_FATAL_LEVEL 0 "out of memory")
      (fresh (verbose_globals 2)) = Outcome.returned (fresh (verbose_globals 2)) :=
  ⟨((LOG_IF_dispatch sample_env sample_site LOG_FATAL_LEVEL 1 "out of memory"
      (fresh (verbose_globals 2))).2 (by decide)).2.2.2.2.1 rfl,
   ((LOG_IF_dispatch sample_env sample_site LOG_FATAL_LEVEL 1 "out of memory"
      (fresh (verbose_globals 2))).2 (by decide)).2.2.2.2.2.2.2 rfl,
   ((LOG_IF_dispatch sample_env sample_site LOG_FATAL_LEVEL 0 "out of memory"
      (fresh (verbose_globals 2))).1 rfl).2⟩

/-- C10: for every level that is none of the five defined ranks and every
condition, true ones included, `LOG_IF(level, cond, msg)` expands to no
statement: no logging call is made, nothing is written and control returns to
the caller with the process unchanged. -/
theorem LOG_IF_undefined_level (env : Env) (s : Site) (level cond : Int)
    (msg : String) (p : Proc) (hlevel : level ∉ defined_levels) :
    LOG_IF s level cond msg = [] ∧
    exec env (LOG_IF s level cond msg) p = Outcome.returned p ∧
    (exec env (LOG_IF s level cond msg) p).status = none ∧
    (exec env (LOG_IF s level cond msg) p).proc.trace = p.trace ∧
    (exec env (LOG_IF s level cond msg) p).proc.output = p.output := by
  have h0 : LOG_IF s level cond msg = [] := by
    simp only [defined_levels, List.mem_cons, List.mem_singleton, List.mem_nil_iff,
      or_false, not_or] at hlevel
    obtain ⟨h1, h2, h3, h4, h5⟩ := hlevel
    simp [LOG_IF, h1, h2, h3, h4, h5]
  rw [h0]
  simp [exec, Outcome.status, Outcome.proc]

theorem LOG_IF_undefined_level_witness :
    (99 : Int) ∉ defined_levels ∧
    LOG_IF sample_site 99 1 "lost" = [] ∧
    exec sample_env (LOG_IF sample_site 99 1 "lost") (fresh (verbose_globals 1)) =
      Outcome.returned (fresh (verbose_globals 1)) :=
  ⟨by decide,
   (LOG_IF_undefined_level sample_env sample_site 99 1 "lost"
      (fresh (verbose_globals 1)) (by decide)).1,
   (LOG_IF_undefined_level sample_env sample_site 99 1 "lost"
      (fresh (verbose_globals 1)) (by decide)).2.1⟩

/-! ## FATAL and the gate -/

/-- C8: for every message and every process state, each of `LOG_DEBUG`,
`LOG_INFO`, `LOG_WARN`, `LOG_ERROR` and their `_F` variants makes exactly one
logging call and returns control to the caller; none of them contains a call
to `exit`, while `LOG_FATAL` and `LOG_FATAL_F` do. -/
theorem below_fatal_fire_and_forget (env : Env) (s : Site) (msg : String)
    (args : List String) (p : Proc) :
    returns_after_one_call env (LOG_DEBUG s msg) p ∧
    returns_after_one_call env (LOG_INFO s msg) p ∧
    returns_after_one_call env (LOG_WARN s msg) p ∧
    returns_after_one_call env (LOG_ERROR s msg) p ∧
    returns_after_one_call env (LOG_DEBUG_F s msg args) p ∧
    returns_after_one_call env (LOG_INFO_F s msg args) p ∧
    returns_after_one_call env (LOG_WARN_F s msg args) p ∧
    returns_after_one_call env (LOG_ERROR_F s msg args) p ∧
    (LOG_DEBUG s msg).any Stmt.is_exit = false ∧
    (LOG_INFO s msg).any Stmt.is_exit = false ∧
    (LOG_WARN s msg).any Stmt.is_exit = false ∧
    (LOG_ERROR s msg).any Stmt.is_exit = false ∧
    (LOG_DEBUG_F s msg args).any Stmt.is_exit = false ∧
    (LOG_INFO_F s msg args).any Stmt.is_exit = false ∧
    (LOG_WARN_F s msg args).any Stmt.is_exit = false ∧
    (LOG_ERROR_F s msg args).any Stmt.is_exit = false ∧
    (LOG_FATAL s msg).any Stmt.is_exit = true ∧
    (LOG_FATAL_F s msg args).any Stmt.is_exit = true ∧
    (exec env (LOG_FATAL s msg) p).status ≠ none ∧
    (exec env (LOG_FATAL_F s msg args) p).status ≠ none := by
  refine ⟨?_, ?_, ?_, ?_, ?_, ?_, ?_, ?_, rfl, rfl, rfl, rfl, rfl, rfl, rfl, rfl, rfl, rfl,
    ?_, ?_⟩
  · exact returns_after_one_call_single env _ p rfl
  · exact returns_after_one_call_single env _ p rfl
  · exact returns_after_one_call_single env _ p rfl
  · exact returns_after_one_call_single env _ p rfl
  · exact returns_after_one_call_single env _ p rfl
  · exact returns_after_one_call_single env _ p rfl
  · exact returns_after_one_call_single env _ p rfl
  · exact returns_after_one_call_single env _ p rfl
  · simp [LOG_FATAL, exec, Outcome.status]
  · simp [LOG_FATAL_F, exec, Outcome.status]

end Log
